import Mathlib

/-!
# Daemonize: a shallow embedding of `constants.go` and `daemonize.go`

The Go package wraps operating-system and standard-library calls (syslog,
`log.Logger`, `os.Create`, `syscall.Setsid`, `os.StartProcess`, ...).  The
embedding makes every such call explicit:

* each call to the outside world appends one `Event` to the `World` trace,
  in program order;
* what the outside world answers (success or an error value) is read from an
  `Env`, whose answers may depend on the whole history of calls so far;
* the methods of `Daemonizer` become functions that pass the `Daemonizer`
  value and the `World` explicitly.
-/

namespace GoDaemonize

/-! ## constants.go -/

/-- Go: `type Severity int`. -/
abbrev Severity := Int

/-- Go: `LOG_DEBUG Severity = iota`. -/
def LOG_DEBUG : Severity := 0
/-- Go: `LOG_INFO`. -/
def LOG_INFO : Severity := 1
/-- Go: `LOG_WARNING`. -/
def LOG_WARNING : Severity := 2
/-- Go: `LOG_ERR`. -/
def LOG_ERR : Severity := 3
/-- Go: `LOG_EMERG`. -/
def LOG_EMERG : Severity := 4

/-! ## The outside world -/

/-- A non-nil Go `error` value, identified by its message; `Option Error`
is a Go `error` that may be nil. -/
abbrev Error := String

/-- An open file handle (`*os.File`), also used for the destination writer
of a logger. -/
abbrev File := Nat

/-- A Go value passed as `any` to a print function: either a value of string
kind, or any other value, given by its default (`%v`) rendering. -/
inductive Value where
  | str (s : String)
  | other (text : String)
  deriving DecidableEq, Repr

/-- Whether the operand is of string kind. -/
def Value.isString : Value → Bool
  | .str _ => true
  | .other _ => false

/-- Default rendering of an operand. -/
def Value.text : Value → String
  | .str s => s
  | .other t => t

/-- Body of the loop of `fmt.Sprint` after the first operand: a space is
added between two operands when neither is a string. -/
def sprintFrom (prevString : Bool) : List Value → String
  | [] => ""
  | a :: rest =>
    (if !a.isString && !prevString then " " else "") ++ a.text ++ sprintFrom a.isString rest

/-- Go standard library: `fmt.Sprint(v...)`. -/
def Sprint : List Value → String
  | [] => ""
  | a :: rest => a.text ++ sprintFrom a.isString rest

/-- A `*log.Logger`: destination writer, line header text and flags, as
given to `log.New`. -/
structure Logger where
  out : File
  pfx : String
  flags : Int
  deriving DecidableEq, Repr

/-- Go standard library: `log.New(out, pfx, flags)`. -/
def logNew (out : File) (pfx : String) (flags : Int) : Logger :=
  { out := out, pfx := pfx, flags := flags }

/-- The five severity methods of `*syslog.Writer`. -/
inductive SinkMethod where
  | Debug
  | Info
  | Warning
  | Err
  | Emerg
  deriving DecidableEq, Repr

/-- The signals named in `HandleSignals`: `os.Interrupt`, `os.Kill`,
`syscall.SIGTERM`. -/
inductive Signal where
  | SIGINT
  | SIGKILL
  | SIGTERM
  deriving DecidableEq, Repr

/-- The handle returned by `syslog.New`. -/
structure SyslogWriter where
  conn : Nat
  deriving DecidableEq, Repr

/-- One call made by the package to the outside world. -/
inductive Event where
  | syslogNew
  | setOutput
  | create (path : String)
  | createTemp (dir pattern : String)
  | sink (m : SinkMethod) (msg : String)
  | print (l : Logger) (v : List Value)
  | setsid
  | executable
  | startProcess (name : String) (argv : List String)
  | chdir (dir : String)
  | fileClose (f : File)
  | sinkClose
  | notify (sigs : List Signal)
  | handler
  deriving DecidableEq, Repr

/-- The answers of the outside world.  Every answer may depend on the
history of calls made before it. -/
structure Env where
  syslogNew : List Event → Except Error SyslogWriter
  osCreate : List Event → String → Except Error File
  osCreateTemp : List Event → String → String → Except Error File
  sinkWrite : List Event → SinkMethod → String → Option Error
  setsid : List Event → Except Error Int
  osExecutable : List Event → Except Error String
  startProcess : List Event → String → List String → Except Error Int
  chdir : List Event → String → Option Error
  fileClose : List Event → File → Option Error
  sinkClose : List Event → Option Error
  stamp : List Event → Int → String

/-- The observable state of the process: the calls made so far, the current
working directory, and the signals that have been delivered to it. -/
structure World where
  trace : List Event
  cwd : String
  delivered : List Signal
  deriving DecidableEq, Repr

/-- Record one call. -/
def World.emit (w : World) (e : Event) : World :=
  { w with trace := w.trace ++ [e] }

/-- The calls made between an earlier world and a later one. -/
def newEvents (w w1 : World) : List Event :=
  w1.trace.drop w.trace.length

/-! ## daemonize.go -/

/-- Go: `type Daemonizer struct`. -/
structure Daemonizer where
  SyslogWriter : SyslogWriter
  Loggers : List Logger
  files : List File
  sid : Int
  deriving DecidableEq, Repr

/-- Go: `func (d *Daemonizer) AddLogger(logger *log.Logger)`. -/
def AddLogger (d : Daemonizer) (logger : Logger) : Daemonizer :=
  { d with Loggers := d.Loggers ++ [logger] }

/-- Go: `func (d *Daemonizer) addFileLogger(file *os.File, ...)`. -/
def addFileLogger (d : Daemonizer) (file : File) (pfx : String) (flags : Int) : Daemonizer :=
  AddLogger d (logNew file pfx flags)

/-- Go: `func (d *Daemonizer) AddFileLogger(path, ... string, flags int) error`.
Returns the updated daemon, the world and the returned error. -/
def AddFileLogger (env : Env) (d : Daemonizer) (w : World) (path pfx : String) (flags : Int) :
    Daemonizer × World × Option Error :=
  let w1 := w.emit (.create path)
  match env.osCreate w.trace path with
  | .error err => (d, w1, some err)
  | .ok file => (addFileLogger d file pfx flags, w1, none)

/-- Go: `func (d *Daemonizer) AddTempFileLogger(dir, pattern, ... string, flags int) error`. -/
def AddTempFileLogger (env : Env) (d : Daemonizer) (w : World) (dir pattern pfx : String)
    (flags : Int) : Daemonizer × World × Option Error :=
  let w1 := w.emit (.createTemp dir pattern)
  match env.osCreateTemp w.trace dir pattern with
  | .error err => (d, w1, some err)
  | .ok file => (addFileLogger d file pfx flags, w1, none)

/-- One severity method call on the syslog writer: the answer and the world
after the call. -/
def sinkCall (env : Env) (w : World) (m : SinkMethod) (msg : String) : Option Error × World :=
  (env.sinkWrite w.trace m msg, w.emit (.sink m msg))

/-- Go standard library: `logger.Print(v...)`, as a call on the logger. -/
def loggerPrint (w : World) (logger : Logger) (v : List Value) : World :=
  w.emit (.print logger v)

/-- Go: `func (d *Daemonizer) Log(severity Severity, v ...any)`.  The
results of the syslog calls are assigned to `_`. -/
def Log (env : Env) (d : Daemonizer) (w : World) (severity : Severity) (v : List Value) : World :=
  let w1 :=
    if severity = LOG_DEBUG then (sinkCall env w .Debug (Sprint v)).2
    else if severity = LOG_WARNING then (sinkCall env w .Warning (Sprint v)).2
    else if severity = LOG_ERR then (sinkCall env w .Err (Sprint v)).2
    else if severity = LOG_EMERG then (sinkCall env w .Emerg (Sprint v)).2
    else (sinkCall env w .Info (Sprint v)).2
  d.Loggers.foldl (fun acc logger => loggerPrint acc logger v) w1

/-- Go: `func (d *Daemonizer) Sid() int`. -/
def Sid (d : Daemonizer) : Int :=
  d.sid

/-- Go: `func (d *Daemonizer) Daemonize(args []string) (int, error)`.  A nil
`args` slice is `none`.  Returns the updated daemon, the world, the returned
code and the returned error. -/
def Daemonize (env : Env) (d : Daemonizer) (w : World) (args : Option (List String)) :
    Daemonizer × World × Int × Option Error :=
  let w1 := w.emit .setsid
  match env.setsid w.trace with
  | .error _ =>
    let w2 := w1.emit .executable
    match env.osExecutable w1.trace with
    | .error err => (d, w2, 1, some err)
    | .ok self =>
      let pArgs := [self]
      let pArgs := match args with
        | some a => pArgs ++ a
        | none => pArgs
      let w3 := w2.emit (.startProcess self pArgs)
      match env.startProcess w2.trace self pArgs with
      | .error err => (d, w3, 1, some err)
      | .ok pid => (d, w3, pid, none)
  | .ok sid =>
    let d1 := { d with sid := sid }
    let w2 := w1.emit (.chdir "/")
    match env.chdir w1.trace "/" with
    | some err => (d1, w2, 0, some err)
    | none => (d1, { w2 with cwd := "/" }, 0, none)

/-- The loop `for _, file := range d.files` of `Close`, threading `err`. -/
def closeFiles (env : Env) : List File → World → Option Error → World × Option Error
  | [], w, err => (w, err)
  | file :: rest, w, err =>
    let fErr := env.fileClose w.trace file
    let w1 := w.emit (.fileClose file)
    closeFiles env rest w1 (match fErr with
      | some e => some e
      | none => err)

/-- Go: `func (d *Daemonizer) Close() error`.  `pnc` is the result of
`recover()`: `some p` when Close runs as a deferred call while the goroutine
panics with `p`, `none` otherwise. -/
def Close (env : Env) (d : Daemonizer) (w : World) (pnc : Option Value) : World × Option Error :=
  let err : Option Error := none
  let w0 := match pnc with
    | some p => Log env d w LOG_EMERG [p]
    | none => w
  let r := closeFiles env d.files w0 err
  let fErr := env.sinkClose r.1.trace
  let w2 := r.1.emit .sinkClose
  let err := match fErr with
    | some e => some e
    | none => r.2
  (Log env d w2 LOG_INFO [.str "Daemon closed"], err)

/-- A Go `func() error` value: its answer may depend on the history. -/
abbrev Handler := List Event → Option Error

/-- Go: `func (d *Daemonizer) HandleSignals(additionalHandler func() error)`.
The body creates the channel, calls `signal.Notify`, calls the handler when
it is not nil and then `Close`; it has no receive on the channel.  `Close` is
an ordinary (not deferred) call here, so its `recover()` yields nil. -/
def HandleSignals (env : Env) (d : Daemonizer) (w : World) (additionalHandler : Option Handler) :
    World :=
  let w1 := w.emit (.notify [.SIGINT, .SIGKILL, .SIGTERM])
  let w2 := match additionalHandler with
    | some h =>
      let err := h w1.trace
      let wh := w1.emit .handler
      match err with
      | some e => Log env d wh LOG_ERR [.other e]
      | none => wh
    | none => w1
  (Close env d w2 none).1

/-- Go: `func NewDaemonizer() (*Daemonizer, error)`. -/
def NewDaemonizer (env : Env) (w : World) : Except Error Daemonizer × World :=
  let d : Daemonizer := { SyslogWriter := ⟨0⟩, Loggers := [], files := [], sid := 0 }
  let w1 := w.emit .syslogNew
  match env.syslogNew w.trace with
  | .error err => (.error err, w1)
  | .ok syslogWriter => (.ok { d with SyslogWriter := syslogWriter }, w1.emit .setOutput)

/-! ## Reading a trace -/

/-- Whether a call is a method call on the syslog writer (one of the five
severity methods, or its `Close`). -/
def Event.onSink : Event → Bool
  | .sink _ _ => true
  | .sinkClose => true
  | _ => false

/-- The `logger.Print` calls of a trace, in order: which logger, which values. -/
def printCalls : List Event → List (Logger × List Value)
  | [] => []
  | .print l v :: rest => (l, v) :: printCalls rest
  | _ :: rest => printCalls rest

/-- The method chosen by the `switch` of `Log`, written as a function. -/
def switchMethod (s : Severity) : SinkMethod :=
  if s = LOG_DEBUG then .Debug
  else if s = LOG_WARNING then .Warning
  else if s = LOG_ERR then .Err
  else if s = LOG_EMERG then .Emerg
  else .Info

/-- Whether a call is one of the close operations of `Close`: a file close
or the syslog close. -/
def Event.isCloseOp : Event → Bool
  | .fileClose _ => true
  | .sinkClose => true
  | _ => false

/-- The answers the environment gave to the close operations of a piece of
trace `evs` that was run after the history `hist`, in call order (`none` is a
successful close). -/
def closeResults (env : Env) : List Event → List Event → List (Option Error)
  | _, [] => []
  | hist, e :: rest =>
    (match e with
      | .fileClose f => [env.fileClose hist f]
      | .sinkClose => [env.sinkClose hist]
      | _ => []) ++ closeResults env (hist ++ [e]) rest

/-- The calls of `d.Log(LOG_EMERG, pnc)` at the start of `Close`, when
`recover()` returned a value. -/
def panicEvents (d : Daemonizer) : Option Value → List Event
  | none => []
  | some p => Event.sink .Emerg (Sprint [p]) :: d.Loggers.map (fun l => Event.print l [p])

/-- The calls of `d.Log(LOG_INFO, "Daemon closed")`. -/
def closedEvents (d : Daemonizer) : List Event :=
  Event.sink .Info "Daemon closed"
    :: d.Loggers.map (fun l => Event.print l [Value.str "Daemon closed"])

/-- The calls of the handler part of `HandleSignals`: the handler call when
the handler is not nil, followed by the calls of `d.Log(LOG_ERR, err)` when it
returned an error. -/
def handlerEvents (d : Daemonizer) (hist : List Event) : Option Handler → List Event
  | none => []
  | some h =>
    Event.handler ::
      (match h hist with
        | none => []
        | some e =>
          Event.sink .Err (Sprint [Value.other e])
            :: d.Loggers.map (fun l => Event.print l [Value.other e]))

/-- The argument of `signal.Notify` in `HandleSignals`. -/
def notifyEvent : Event :=
  Event.notify [.SIGINT, .SIGKILL, .SIGTERM]

/-- Go standard library: the record that `logger.Print(v...)` writes to the
destination in one `Write`: the header of `log.Logger` (the logger's text
before the date, time and file part `stamp`, or after it when the flag
`log.Lmsgprefix` = 64 is set), then `fmt.Sprint(v...)`, then a newline when
the text does not end in one. -/
def Logger.record (l : Logger) (stamp : String) (v : List Value) : String :=
  (if l.flags.testBit 6 then "" else l.pfx) ++ stamp
    ++ (if l.flags.testBit 6 then l.pfx else "")
    ++ Sprint v
    ++ (if (Sprint v).data.getLast? = some '\n' then "" else "\n")

/-- The records received by file `f` from the `Print` calls of a piece of
trace `evs` run after `hist`, in order.  A write to a file that has been
closed fails and leaves nothing. -/
def fileWrites (env : Env) (f : File) : List Event → List Event → List String
  | _, [] => []
  | hist, e :: rest =>
    (match e with
      | .print l v =>
        if l.out = f ∧ Event.fileClose f ∉ hist then [l.record (env.stamp hist l.flags) v]
        else []
      | _ => []) ++ fileWrites env f (hist ++ [e]) rest

/-- The text `needle` occurs in `hay`. -/
def contains (hay needle : String) : Prop :=
  needle.data <:+: hay.data

instance (hay needle : String) : Decidable (contains hay needle) := by
  unfold contains
  infer_instance

/-! ## Sample environments and states -/

/-- An environment in which every call succeeds: session id 7, executable
`/bin/svc`, child pid 4242, file handle 3. -/
def envOk : Env where
  syslogNew := fun _ => .ok ⟨1⟩
  osCreate := fun _ _ => .ok 3
  osCreateTemp := fun _ _ _ => .ok 3
  sinkWrite := fun _ _ _ => none
  setsid := fun _ => .ok 7
  osExecutable := fun _ => .ok "/bin/svc"
  startProcess := fun _ _ _ => .ok 4242
  chdir := fun _ _ => none
  fileClose := fun _ _ => none
  sinkClose := fun _ => none
  stamp := fun _ _ => ""

/-- The world of a process that has made no call yet. -/
def world0 : World :=
  { trace := [], cwd := "/home/user", delivered := [] }

/-- A daemon as `NewDaemonizer` returns it. -/
def daemon0 : Daemonizer :=
  { SyslogWriter := ⟨1⟩, Loggers := [], files := [], sid := 0 }

/-- A daemon with two loggers and one tracked file (a state of the struct
that the exported methods do not build). -/
def daemon2 : Daemonizer :=
  { SyslogWriter := ⟨1⟩, Loggers := [logNew 3 "a: " 0, logNew 4 "b: " 64], files := [3], sid := 0 }

/-- An environment like `envOk` in which changing the working directory
fails. -/
def envChdirFails : Env :=
  { envOk with chdir := fun _ _ => some "chdir /: permission denied" }

/-- An environment like `envOk` in which `setsid` fails (the process is
already a process group leader). -/
def envSetsidFails : Env :=
  { envOk with setsid := fun _ => .error "operation not permitted" }

/-! ## The end-to-end sequence of the specification -/

/-- The end-to-end sequence: construct a daemon, `AddFileLogger(P, "svc: ",
flags)`, `Log(LOG_INFO, "ready")`, `Close()`.  The result is the error of the
construction or of `AddFileLogger` when one of them fails, and otherwise
the final world together with the result of `Close`. -/
def scenario (env : Env) (w0 : World) (P : String) (flags : Int) :
    Except Error (World × Option Error) :=
  match NewDaemonizer env w0 with
  | (.error e, _) => .error e
  | (.ok d, w1) =>
    match AddFileLogger env d w1 P "svc: " flags with
    | (_, _, some e) => .error e
    | (d2, w2, none) =>
      let w3 := Log env d2 w2 LOG_INFO [Value.str "ready"]
      .ok (Close env d2 w3 none)

/-! ## Basic facts about traces -/

theorem newEvents_of_append (w w1 : World) (evs : List Event)
    (h : w1.trace = w.trace ++ evs) : newEvents w w1 = evs := by
  unfold newEvents
  rw [h, List.drop_left]

theorem printLoop_trace (v : List Value) (ls : List Logger) (w : World) :
    (ls.foldl (fun acc logger => loggerPrint acc logger v) w).trace
      = w.trace ++ ls.map (fun l => Event.print l v) := by
  induction ls generalizing w with
  | nil => simp
  | cons l rest ih =>
    rw [List.foldl_cons, ih]
    simp [loggerPrint, World.emit]

theorem Log_trace (env : Env) (d : Daemonizer) (w : World) (s : Severity) (v : List Value) :
    (Log env d w s v).trace
      = w.trace ++ Event.sink (switchMethod s) (Sprint v)
          :: d.Loggers.map (fun l => Event.print l v) := by
  unfold Log
  rw [printLoop_trace]
  unfold switchMethod
  split_ifs <;> simp [sinkCall, World.emit]

theorem filter_onSink_prints (v : List Value) (ls : List Logger) :
    (ls.map (fun l => Event.print l v)).filter Event.onSink = [] := by
  induction ls with
  | nil => rfl
  | cons l rest ih => simp [List.filter_cons, Event.onSink]

theorem printCalls_prints (v : List Value) (ls : List Logger) :
    printCalls (ls.map (fun l => Event.print l v)) = ls.map (fun l => (l, v)) := by
  induction ls with
  | nil => rfl
  | cons l rest ih => simp [printCalls, ih]

theorem AddLogger_fold_Loggers (ls : List Logger) (d : Daemonizer) :
    (ls.foldl AddLogger d).Loggers = d.Loggers ++ ls := by
  induction ls generalizing d with
  | nil => simp
  | cons l rest ih =>
    rw [List.foldl_cons, ih]
    simp [AddLogger]

theorem closeFiles_trace (env : Env) (fs : List File) (w : World) (err : Option Error) :
    (closeFiles env fs w err).1.trace = w.trace ++ fs.map Event.fileClose := by
  induction fs generalizing w err with
  | nil => simp [closeFiles]
  | cons f rest ih =>
    simp only [closeFiles]
    rw [ih]
    simp [World.emit]

theorem closeFiles_err (env : Env) (fs : List File) (w : World) (err : Option Error) :
    (closeFiles env fs w err).2
      = (err.toList ++ (closeResults env w.trace (fs.map Event.fileClose)).reduceOption).getLast? := by
  induction fs generalizing w err with
  | nil => cases err <;> simp [closeFiles, closeResults]
  | cons f rest ih =>
    simp only [closeFiles]
    rw [ih]
    simp only [List.map_cons, closeResults, World.emit]
    cases hf : env.fileClose w.trace f with
    | none => simp [List.reduceOption_cons_of_none]
    | some e =>
      simp only [List.singleton_append, List.reduceOption_cons_of_some, Option.toList]
      rw [List.getLast?_append_cons]

theorem closeResults_append (env : Env) (a b hist : List Event) :
    closeResults env hist (a ++ b)
      = closeResults env hist a ++ closeResults env (hist ++ a) b := by
  induction a generalizing hist with
  | nil => simp [closeResults]
  | cons e rest ih =>
    have h := ih (hist ++ [e])
    simp only [List.cons_append, closeResults, List.append_eq, h, List.append_assoc,
      List.singleton_append, List.nil_append]

theorem closeResults_of_no_closeOp (env : Env) (evs hist : List Event)
    (h : ∀ e ∈ evs, Event.isCloseOp e = false) : closeResults env hist evs = [] := by
  induction evs generalizing hist with
  | nil => rfl
  | cons e rest ih =>
    have he := h e (List.mem_cons_self _ _)
    have hr := ih (hist ++ [e]) (fun x hx => h x (List.mem_cons_of_mem _ hx))
    cases e <;> simp_all [closeResults, Event.isCloseOp]

theorem closeResults_fileCloses_length (env : Env) (fs : List File) (hist : List Event) :
    (closeResults env hist (fs.map Event.fileClose)).length = fs.length := by
  induction fs generalizing hist with
  | nil => rfl
  | cons f rest ih => simp [closeResults, ih]

theorem panicEvents_no_closeOp (d : Daemonizer) (pnc : Option Value) :
    ∀ e ∈ panicEvents d pnc, Event.isCloseOp e = false := by
  cases pnc with
  | none => simp [panicEvents]
  | some p =>
    intro e he
    simp only [panicEvents, List.mem_cons, List.mem_map] at he
    rcases he with rfl | ⟨l, _, rfl⟩ <;> rfl

theorem closedEvents_no_closeOp (d : Daemonizer) :
    ∀ e ∈ closedEvents d, Event.isCloseOp e = false := by
  intro e he
  simp only [closedEvents, List.mem_cons, List.mem_map] at he
  rcases he with rfl | ⟨l, _, rfl⟩ <;> rfl

theorem Log_closed_trace (env : Env) (d : Daemonizer) (w : World) :
    (Log env d w LOG_INFO [Value.str "Daemon closed"]).trace = w.trace ++ closedEvents d := by
  rw [Log_trace]
  simp [closedEvents, switchMethod, LOG_INFO, LOG_DEBUG, LOG_WARNING, LOG_ERR, LOG_EMERG,
    Sprint, sprintFrom, Value.text]

theorem panic_trace (env : Env) (d : Daemonizer) (w : World) (pnc : Option Value) :
    (match pnc with
      | some p => Log env d w LOG_EMERG [p]
      | none => w).trace = w.trace ++ panicEvents d pnc := by
  cases pnc with
  | none => simp [panicEvents]
  | some p =>
    simp only [Log_trace, panicEvents]
    simp [switchMethod, LOG_DEBUG, LOG_WARNING, LOG_ERR, LOG_EMERG]

theorem Close_trace (env : Env) (d : Daemonizer) (w : World) (pnc : Option Value) :
    (Close env d w pnc).1.trace
      = w.trace ++ (panicEvents d pnc ++ d.files.map Event.fileClose ++ [Event.sinkClose]
          ++ closedEvents d) := by
  unfold Close
  simp only [Log_closed_trace, World.emit, closeFiles_trace, panic_trace]
  simp

theorem Close_err (env : Env) (d : Daemonizer) (w : World) (pnc : Option Value) :
    (Close env d w pnc).2
      = ((closeResults env (w.trace ++ panicEvents d pnc)
            (d.files.map Event.fileClose)).reduceOption
          ++ (env.sinkClose (w.trace ++ panicEvents d pnc
                ++ d.files.map Event.fileClose)).toList).getLast? := by
  unfold Close
  simp only [closeFiles_trace, closeFiles_err, panic_trace, Option.toList, List.nil_append]
  cases env.sinkClose (w.trace ++ panicEvents d pnc ++ d.files.map Event.fileClose) <;> simp

theorem filter_isCloseOp_of_none (evs : List Event)
    (h : ∀ e ∈ evs, Event.isCloseOp e = false) : evs.filter Event.isCloseOp = [] := by
  rw [List.filter_eq_nil_iff]
  intro e he
  simp [h e he]

theorem filter_isCloseOp_fileCloses (fs : List File) :
    (fs.map Event.fileClose).filter Event.isCloseOp = fs.map Event.fileClose := by
  rw [List.filter_eq_self]
  intro e he
  simp only [List.mem_map] at he
  rcases he with ⟨f, _, rfl⟩
  rfl

theorem reduceOption_getLast_none_iff (rs : List (Option Error)) :
    rs.reduceOption.getLast? = none ↔ ∀ r ∈ rs, r = none := by
  rw [List.getLast?_eq_none_iff]
  induction rs with
  | nil => simp
  | cons r rest ih =>
    cases r with
    | none => simp [List.reduceOption_cons_of_none, ih]
    | some e => simp [List.reduceOption_cons_of_some]

theorem Close_closeResults (env : Env) (d : Daemonizer) (w : World) (pnc : Option Value) :
    closeResults env w.trace (newEvents w (Close env d w pnc).1)
      = closeResults env (w.trace ++ panicEvents d pnc) (d.files.map Event.fileClose)
          ++ [env.sinkClose (w.trace ++ panicEvents d pnc ++ d.files.map Event.fileClose)] := by
  rw [newEvents_of_append w _ _ (Close_trace env d w pnc)]
  rw [closeResults_append, closeResults_append, closeResults_append]
  rw [closeResults_of_no_closeOp env (closedEvents d) _ (closedEvents_no_closeOp d)]
  rw [closeResults_of_no_closeOp env (panicEvents d pnc) _ (panicEvents_no_closeOp d pnc)]
  simp [closeResults]

theorem count_in_prints (e : Event) (he : ∀ l v, e ≠ Event.print l v) (ls : List Logger)
    (v : List Value) : (ls.map (fun l => Event.print l v)).count e = 0 := by
  apply List.count_eq_zero_of_not_mem
  intro hm
  simp only [List.mem_map] at hm
  rcases hm with ⟨l, _, hl⟩
  exact he l v hl.symm

theorem count_in_fileCloses (e : Event) (he : ∀ f, e ≠ Event.fileClose f) (fs : List File) :
    (fs.map Event.fileClose).count e = 0 := by
  apply List.count_eq_zero_of_not_mem
  intro hm
  simp only [List.mem_map] at hm
  rcases hm with ⟨f, _, hf⟩
  exact he f hf.symm

theorem HandleSignals_as_Close (env : Env) (d : Daemonizer) (w : World)
    (additionalHandler : Option Handler) :
    ∃ w2 : World,
      w2.trace = w.trace ++ notifyEvent :: handlerEvents d (w.trace ++ [notifyEvent])
        additionalHandler ∧
      HandleSignals env d w additionalHandler = (Close env d w2 none).1 := by
  cases additionalHandler with
  | none =>
    exact ⟨w.emit notifyEvent, by simp [World.emit, handlerEvents], rfl⟩
  | some h =>
    cases hr : h (w.trace ++ [notifyEvent]) with
    | none =>
      refine ⟨(w.emit notifyEvent).emit Event.handler, ?_, ?_⟩
      · simp [World.emit, handlerEvents, hr]
      · simp only [notifyEvent] at hr
        simp [HandleSignals, World.emit, hr, notifyEvent]
    | some e =>
      refine ⟨Log env d ((w.emit notifyEvent).emit Event.handler) LOG_ERR [Value.other e], ?_, ?_⟩
      · rw [Log_trace]
        simp [World.emit, handlerEvents, hr, switchMethod, LOG_ERR, LOG_DEBUG, LOG_WARNING]
      · simp only [notifyEvent] at hr
        simp [HandleSignals, World.emit, hr, notifyEvent]

theorem contains_self (a : String) : contains a a :=
  ⟨[], [], by simp⟩

theorem contains_append_left (a b n : String) (h : contains a n) : contains (a ++ b) n := by
  obtain ⟨s, t, hst⟩ := h
  exact ⟨s, t ++ b.data, by simp [String.data_append, ← hst]⟩

theorem contains_append_right (a b n : String) (h : contains b n) : contains (a ++ b) n := by
  obtain ⟨s, t, hst⟩ := h
  exact ⟨a.data ++ s, t, by simp [String.data_append, ← hst]⟩

theorem record_contains_pfx (l : Logger) (stamp : String) (v : List Value) :
    contains (l.record stamp v) l.pfx := by
  unfold Logger.record
  cases l.flags.testBit 6
  · exact contains_append_left _ _ _ (contains_append_left _ _ _ (contains_append_left _ _ _
      (contains_append_left _ _ _ (by simpa using contains_self l.pfx))))
  · exact contains_append_left _ _ _ (contains_append_left _ _ _ (contains_append_right _ _ _
      (by simpa using contains_self l.pfx)))

theorem record_contains_text (l : Logger) (stamp : String) (v : List Value) :
    contains (l.record stamp v) (Sprint v) := by
  unfold Logger.record
  exact contains_append_left _ _ _ (contains_append_right _ _ _ (contains_self _))

theorem scenario_run (env : Env) (w0 : World) (P : String) (flags : Int)
    (sw : SyslogWriter) (f : File)
    (hstart : w0.trace = [])
    (hsys : env.syslogNew [] = .ok sw)
    (hcreate : env.osCreate [Event.syslogNew, Event.setOutput] P = .ok f)
    (hclose : env.sinkClose [Event.syslogNew, Event.setOutput, Event.create P,
      Event.sink SinkMethod.Info "ready",
      Event.print (logNew f "svc: " flags) [Value.str "ready"]] = none) :
    ∃ wf : World,
      scenario env w0 P flags = .ok (wf, none) ∧
      wf.trace = [Event.syslogNew, Event.setOutput, Event.create P,
        Event.sink SinkMethod.Info "ready",
        Event.print (logNew f "svc: " flags) [Value.str "ready"],
        Event.sinkClose,
        Event.sink SinkMethod.Info "Daemon closed",
        Event.print (logNew f "svc: " flags) [Value.str "Daemon closed"]] := by
  have h1 : NewDaemonizer env w0
      = (.ok ⟨sw, [], [], 0⟩, (w0.emit Event.syslogNew).emit Event.setOutput) := by
    simp [NewDaemonizer, hstart, hsys]
  have h2 : AddFileLogger env ⟨sw, [], [], 0⟩ ((w0.emit Event.syslogNew).emit Event.setOutput)
      P "svc: " flags
      = (⟨sw, [logNew f "svc: " flags], [], 0⟩,
          ((w0.emit Event.syslogNew).emit Event.setOutput).emit (Event.create P), none) := by
    simp [AddFileLogger, World.emit, hstart, hcreate, addFileLogger, AddLogger]
  refine ⟨(Close env ⟨sw, [logNew f "svc: " flags], [], 0⟩
    (Log env ⟨sw, [logNew f "svc: " flags], [], 0⟩
      (((w0.emit Event.syslogNew).emit Event.setOutput).emit (Event.create P))
      LOG_INFO [Value.str "ready"]) none).1, ?_, ?_⟩
  · simp only [scenario, h1, h2]
    congr 1
    apply Prod.ext
    · rfl
    · rw [Close_err, Log_trace]
      simp [hclose, closeResults, World.emit, hstart, panicEvents, switchMethod, LOG_INFO,
        LOG_DEBUG, LOG_WARNING, LOG_ERR, LOG_EMERG, Sprint, sprintFrom, Value.text]
  · rw [Close_trace, Log_trace]
    simp [World.emit, hstart, panicEvents, closedEvents, switchMethod, LOG_INFO, LOG_DEBUG,
      LOG_WARNING, LOG_ERR, LOG_EMERG, Sprint, sprintFrom, Value.text]

/-! ## The claims -/

/-- C1: for every severity value (any integer) and every value list, the
calls that `Log` makes on the syslog writer are exactly one: the method is
Debug for LOG_DEBUG, Warning for LOG_WARNING, Err for LOG_ERR, Emerg for
LOG_EMERG and Info for LOG_INFO and for every other value, and its argument
is `fmt.Sprint` of the values. -/
theorem C1_log_dispatches_one_sink_method (env : Env) (d : Daemonizer) (w : World)
    (s : Severity) (v : List Value) :
    w.trace <+: (Log env d w s v).trace ∧
    (newEvents w (Log env d w s v)).filter Event.onSink
      = [Event.sink
          (if s = LOG_DEBUG then SinkMethod.Debug
           else if s = LOG_WARNING then SinkMethod.Warning
           else if s = LOG_ERR then SinkMethod.Err
           else if s = LOG_EMERG then SinkMethod.Emerg
           else SinkMethod.Info)
          (Sprint v)] := by
  have h := Log_trace env d w s v
  refine ⟨⟨_, h.symm⟩, ?_⟩
  rw [newEvents_of_append w _ _ h]
  simp only [List.filter_cons, Event.onSink, filter_onSink_prints, switchMethod]
  simp

/-- C2: for a daemon whose logger sequence was built by successive
`AddLogger` calls, `Log` calls `Print` with the given values on each
registered logger exactly once, in registration order, for every severity and
every environment (so whether the syslog write succeeds or fails); `Log`
is a total function without an error result. -/
theorem C2_log_prints_each_logger_in_order (env : Env) (d0 : Daemonizer) (ls : List Logger)
    (w : World) (s : Severity) (v : List Value) :
    (ls.foldl AddLogger d0).Loggers = d0.Loggers ++ ls ∧
    printCalls (newEvents w (Log env (ls.foldl AddLogger d0) w s v))
      = (d0.Loggers ++ ls).map (fun l => (l, v)) := by
  have hL := AddLogger_fold_Loggers ls d0
  refine ⟨hL, ?_⟩
  have h := Log_trace env (ls.foldl AddLogger d0) w s v
  rw [newEvents_of_append w _ _ h, hL]
  simp only [printCalls]
  exact printCalls_prints v (d0.Loggers ++ ls)

/-- C3: `AddFileLogger` and `AddTempFileLogger` return the error of the
failed file creation and leave the daemon (so its logger sequence) as it was;
when the creation succeeds they return nil and the logger sequence is the old
one followed by exactly one logger, the one made by `log.New` on the created
file. -/
theorem C3_file_logger_error_and_append (env : Env) (d : Daemonizer) (w : World)
    (path dir pattern pfx : String) (flags : Int) :
    (match env.osCreate w.trace path with
      | .error err =>
        (AddFileLogger env d w path pfx flags).2.2 = some err ∧
        (AddFileLogger env d w path pfx flags).1 = d
      | .ok file =>
        (AddFileLogger env d w path pfx flags).2.2 = none ∧
        (AddFileLogger env d w path pfx flags).1.Loggers
          = d.Loggers ++ [logNew file pfx flags] ∧
        (AddFileLogger env d w path pfx flags).1.Loggers.length = d.Loggers.length + 1) ∧
    (match env.osCreateTemp w.trace dir pattern with
      | .error err =>
        (AddTempFileLogger env d w dir pattern pfx flags).2.2 = some err ∧
        (AddTempFileLogger env d w dir pattern pfx flags).1 = d
      | .ok file =>
        (AddTempFileLogger env d w dir pattern pfx flags).2.2 = none ∧
        (AddTempFileLogger env d w dir pattern pfx flags).1.Loggers
          = d.Loggers ++ [logNew file pfx flags] ∧
        (AddTempFileLogger env d w dir pattern pfx flags).1.Loggers.length
          = d.Loggers.length + 1) := by
  constructor
  · unfold AddFileLogger
    cases env.osCreate w.trace path <;> simp [addFileLogger, AddLogger]
  · unfold AddTempFileLogger
    cases env.osCreateTemp w.trace dir pattern <;> simp [addFileLogger, AddLogger]

/-- C4 (the code at a failing input): `AddFileLogger` succeeds on a fresh
daemon and creates file handle 3, yet the tracked file list `files` is still
empty afterwards (likewise after a successful `AddTempFileLogger`), and the
`Close` that follows makes no `Close` call on that file: the only calls of
`Close` are the syslog close and the final log. -/
theorem C4_created_file_is_not_tracked :
    envOk.osCreate world0.trace "/var/log/svc.log" = .ok 3 ∧
    (AddFileLogger envOk daemon0 world0 "/var/log/svc.log" "svc: " 0).2.2 = none ∧
    (AddFileLogger envOk daemon0 world0 "/var/log/svc.log" "svc: " 0).1.files = [] ∧
    (AddTempFileLogger envOk daemon0 world0 "/tmp" "svc-*.log" "svc: " 0).2.2 = none ∧
    (AddTempFileLogger envOk daemon0 world0 "/tmp" "svc-*.log" "svc: " 0).1.files = [] ∧
    (Close envOk (AddFileLogger envOk daemon0 world0 "/var/log/svc.log" "svc: " 0).1
        (AddFileLogger envOk daemon0 world0 "/var/log/svc.log" "svc: " 0).2.1 none).1.trace
      = [Event.create "/var/log/svc.log", Event.sinkClose,
         Event.sink SinkMethod.Info "Daemon closed",
         Event.print (logNew 3 "svc: " 0) [Value.str "Daemon closed"]] := by
  refine ⟨rfl, rfl, rfl, rfl, rfl, ?_⟩
  simp [Close, closeFiles, Log_trace, AddFileLogger, addFileLogger, AddLogger, envOk, world0,
    daemon0, World.emit, switchMethod, LOG_INFO, LOG_DEBUG, LOG_WARNING, LOG_ERR, LOG_EMERG,
    Sprint, sprintFrom, Value.text]

/-- C5 (as stated, refuted): session creation succeeds with session id 7 but
changing the working directory fails; `Daemonize` then returns an error and
the working directory is not the root. -/
theorem C5_counterexample_chdir_fails :
    envChdirFails.setsid world0.trace = .ok 7 ∧
    (Daemonize envChdirFails daemon0 world0 none).2.2.2 ≠ none ∧
    (Daemonize envChdirFails daemon0 world0 none).2.1.cwd ≠ "/" := by
  refine ⟨rfl, ?_, ?_⟩
  · simp [Daemonize, envChdirFails, envOk]
  · simp [Daemonize, envChdirFails, envOk, World.emit, world0]

/-- C5 (amended): when session creation succeeds with session id `s`,
`Daemonize` returns code 0 and, as its error, the result of changing the
working directory to the root (nil exactly when that change succeeds, and
then the working directory is the root); `Sid` afterwards returns `s`; the only
calls made are `setsid` and `chdir` to the root, so no child process is
spawned. -/
theorem C5_daemonize_session_created (env : Env) (d : Daemonizer) (w : World)
    (args : Option (List String)) (s : Int) (h : env.setsid w.trace = .ok s) :
    (Daemonize env d w args).2.2.1 = 0 ∧
    (Daemonize env d w args).2.2.2 = env.chdir (w.trace ++ [Event.setsid]) "/" ∧
    Sid (Daemonize env d w args).1 = s ∧
    newEvents w (Daemonize env d w args).2.1 = [Event.setsid, Event.chdir "/"] ∧
    (match env.chdir (w.trace ++ [Event.setsid]) "/" with
      | none => (Daemonize env d w args).2.1.cwd = "/"
      | some _ => (Daemonize env d w args).2.1.cwd = w.cwd) := by
  unfold Daemonize
  simp only [h, World.emit]
  cases hc : env.chdir (w.trace ++ [Event.setsid]) "/" <;>
    simp [Sid, newEvents]

/-- C5 (amended), instantiated: every call succeeds and `setsid` returns 7. -/
theorem C5_daemonize_session_created_witness :
    envOk.setsid world0.trace = .ok 7 ∧
    ((Daemonize envOk daemon0 world0 (some ["-c", "svc.conf"])).2.2.1 = 0 ∧
    (Daemonize envOk daemon0 world0 (some ["-c", "svc.conf"])).2.2.2
      = envOk.chdir (world0.trace ++ [Event.setsid]) "/" ∧
    Sid (Daemonize envOk daemon0 world0 (some ["-c", "svc.conf"])).1 = 7 ∧
    newEvents world0 (Daemonize envOk daemon0 world0 (some ["-c", "svc.conf"])).2.1
      = [Event.setsid, Event.chdir "/"] ∧
    (match envOk.chdir (world0.trace ++ [Event.setsid]) "/" with
      | none => (Daemonize envOk daemon0 world0 (some ["-c", "svc.conf"])).2.1.cwd = "/"
      | some _ =>
        (Daemonize envOk daemon0 world0 (some ["-c", "svc.conf"])).2.1.cwd = world0.cwd)) :=
  ⟨rfl, C5_daemonize_session_created envOk daemon0 world0 (some ["-c", "svc.conf"]) 7 rfl⟩

/-- C6: when session creation fails, `Daemonize` resolves the executable
path; if that fails it makes no further call (nothing is spawned) and returns
code 1 with that error; otherwise it spawns the resolved path `self` with
argument vector `[self] ++ args` (just `[self]` for a nil or empty `args`) and
returns the child pid with a nil error, or code 1 with the spawn error.  The
daemon, and so its recorded session id, is unchanged. -/
theorem C6_daemonize_respawn (env : Env) (d : Daemonizer) (w : World)
    (args : Option (List String)) (e : Error) (h : env.setsid w.trace = .error e) :
    (Daemonize env d w args).1 = d ∧
    Sid (Daemonize env d w args).1 = Sid d ∧
    (match env.osExecutable (w.trace ++ [Event.setsid]) with
      | .error err =>
        (Daemonize env d w args).2.2 = (1, some err) ∧
        newEvents w (Daemonize env d w args).2.1 = [Event.setsid, Event.executable]
      | .ok self =>
        newEvents w (Daemonize env d w args).2.1
          = [Event.setsid, Event.executable,
             Event.startProcess self ([self] ++ args.getD [])] ∧
        (match env.startProcess (w.trace ++ [Event.setsid, Event.executable]) self
            ([self] ++ args.getD []) with
          | .ok pid => (Daemonize env d w args).2.2 = (pid, none)
          | .error err => (Daemonize env d w args).2.2 = (1, some err))) := by
  unfold Daemonize
  simp only [h, World.emit]
  cases hx : env.osExecutable (w.trace ++ [Event.setsid]) with
  | error err => simp [newEvents]
  | ok self =>
    cases args with
    | none =>
      cases hs : env.startProcess (w.trace ++ [Event.setsid] ++ [Event.executable]) self [self] <;>
        simp_all [newEvents]
    | some a =>
      cases hs : env.startProcess (w.trace ++ [Event.setsid] ++ [Event.executable]) self
          ([self] ++ a) <;>
        simp_all [newEvents]

/-- C6, instantiated: `setsid` fails, the executable is `/bin/svc`, the
spawn succeeds with pid 4242. -/
theorem C6_daemonize_respawn_witness :
    envSetsidFails.setsid world0.trace = .error "operation not permitted" ∧
    ((Daemonize envSetsidFails daemon0 world0 (some ["-c", "svc.conf"])).1 = daemon0 ∧
    Sid (Daemonize envSetsidFails daemon0 world0 (some ["-c", "svc.conf"])).1 = Sid daemon0 ∧
    (match envSetsidFails.osExecutable (world0.trace ++ [Event.setsid]) with
      | .error err =>
        (Daemonize envSetsidFails daemon0 world0 (some ["-c", "svc.conf"])).2.2
          = (1, some err) ∧
        newEvents world0 (Daemonize envSetsidFails daemon0 world0 (some ["-c", "svc.conf"])).2.1
          = [Event.setsid, Event.executable]
      | .ok self =>
        newEvents world0 (Daemonize envSetsidFails daemon0 world0 (some ["-c", "svc.conf"])).2.1
          = [Event.setsid, Event.executable,
             Event.startProcess self ([self] ++ (some ["-c", "svc.conf"]).getD [])] ∧
        (match envSetsidFails.startProcess (world0.trace ++ [Event.setsid, Event.executable])
            self ([self] ++ (some ["-c", "svc.conf"]).getD []) with
          | .ok pid =>
            (Daemonize envSetsidFails daemon0 world0 (some ["-c", "svc.conf"])).2.2
              = (pid, none)
          | .error err =>
            (Daemonize envSetsidFails daemon0 world0 (some ["-c", "svc.conf"])).2.2
              = (1, some err)))) :=
  ⟨rfl, C6_daemonize_respawn envSetsidFails daemon0 world0 (some ["-c", "svc.conf"])
    "operation not permitted" rfl⟩

/-- C7: for every daemon state, every environment (every assignment of
success or failure to the close calls) and every `recover()` result, the
close operations that `Close` performs are exactly one close of each tracked
file, in order, followed by the syslog close (one answer per operation, so a
failing close stops nothing); the returned error is the last error among
these answers in call order, and it is nil if and only if every answer is
nil. -/
theorem C7_close_attempts_all_returns_last_error (env : Env) (d : Daemonizer) (w : World)
    (pnc : Option Value) :
    (newEvents w (Close env d w pnc).1).filter Event.isCloseOp
      = d.files.map Event.fileClose ++ [Event.sinkClose] ∧
    (closeResults env w.trace (newEvents w (Close env d w pnc).1)).length
      = d.files.length + 1 ∧
    (Close env d w pnc).2
      = (closeResults env w.trace (newEvents w (Close env d w pnc).1)).reduceOption.getLast? ∧
    ((Close env d w pnc).2 = none ↔
      ∀ r ∈ closeResults env w.trace (newEvents w (Close env d w pnc).1), r = none) := by
  have hres := Close_closeResults env d w pnc
  have herr : (Close env d w pnc).2
      = (closeResults env w.trace (newEvents w (Close env d w pnc).1)).reduceOption.getLast? := by
    rw [hres, Close_err, List.reduceOption_append]
    cases env.sinkClose (w.trace ++ panicEvents d pnc ++ d.files.map Event.fileClose) <;>
      simp [List.reduceOption_cons_of_none, List.reduceOption_cons_of_some]
  refine ⟨?_, ?_, herr, ?_⟩
  · rw [newEvents_of_append w _ _ (Close_trace env d w pnc)]
    simp only [List.filter_append,
      filter_isCloseOp_of_none _ (panicEvents_no_closeOp d pnc),
      filter_isCloseOp_of_none _ (closedEvents_no_closeOp d), filter_isCloseOp_fileCloses]
    simp [Event.isCloseOp]
  · rw [hres]
    simp [closeResults_fileCloses_length]
  · rw [herr]
    exact reduceOption_getLast_none_iff _

/-- C8 (the code at a failing input): no signal has been delivered to the
process, yet `HandleSignals` returns, having called the additional handler
and then `Close` (the syslog close and the final log). -/
theorem C8_handle_signals_does_not_wait :
    world0.delivered = [] ∧
    (HandleSignals envOk daemon0 world0 (some (fun _ => none))).delivered = [] ∧
    (HandleSignals envOk daemon0 world0 (some (fun _ => none))).trace
      = [Event.notify [Signal.SIGINT, Signal.SIGKILL, Signal.SIGTERM], Event.handler,
         Event.sinkClose, Event.sink SinkMethod.Info "Daemon closed"] := by
  refine ⟨rfl, rfl, ?_⟩
  simp [HandleSignals, Close_trace, World.emit, world0, daemon0, panicEvents, closedEvents]

/-- C9: for every handler (nil, succeeding or failing), the calls of
`HandleSignals` are: the signal subscription; then, when the handler is not
nil, one handler call, followed by the calls of `Log(LOG_ERR, e)` when it
returned the error `e`; then the calls of one `Close`: each tracked file,
the syslog close, the final log.  The handler is called once when it is not
nil and never otherwise, the syslog is closed exactly once, and the result of
`HandleSignals` is the world that this `Close` leaves: its error is dropped. -/
theorem C9_handle_signals_handler_then_close (env : Env) (d : Daemonizer) (w : World)
    (additionalHandler : Option Handler) :
    newEvents w (HandleSignals env d w additionalHandler)
      = notifyEvent :: handlerEvents d (w.trace ++ [notifyEvent]) additionalHandler
          ++ (d.files.map Event.fileClose ++ [Event.sinkClose] ++ closedEvents d) ∧
    (newEvents w (HandleSignals env d w additionalHandler)).count Event.handler
      = (if additionalHandler.isSome then 1 else 0) ∧
    (newEvents w (HandleSignals env d w additionalHandler)).count Event.sinkClose = 1 ∧
    (∃ w2 : World,
      w2.trace = w.trace ++ notifyEvent :: handlerEvents d (w.trace ++ [notifyEvent])
        additionalHandler ∧
      HandleSignals env d w additionalHandler = (Close env d w2 none).1) := by
  obtain ⟨w2, hw2, hH⟩ := HandleSignals_as_Close env d w additionalHandler
  have htr : (HandleSignals env d w additionalHandler).trace
      = w.trace ++ (notifyEvent :: handlerEvents d (w.trace ++ [notifyEvent]) additionalHandler
          ++ (d.files.map Event.fileClose ++ [Event.sinkClose] ++ closedEvents d)) := by
    rw [hH, Close_trace, hw2]
    simp [panicEvents]
  have hnew := newEvents_of_append w _ _ htr
  refine ⟨hnew, ?_, ?_, ⟨w2, hw2, hH⟩⟩
  · rw [hnew]
    cases additionalHandler with
    | none =>
      simp [handlerEvents, closedEvents, notifyEvent, List.count_cons, count_in_prints,
        count_in_fileCloses]
    | some h =>
      cases hr : h (w.trace ++ [Event.notify [Signal.SIGINT, Signal.SIGKILL, Signal.SIGTERM]]) <;>
        simp [handlerEvents, hr, closedEvents, notifyEvent, List.count_cons, count_in_prints,
          count_in_fileCloses]
  · rw [hnew]
    cases additionalHandler with
    | none =>
      simp [handlerEvents, closedEvents, notifyEvent, List.count_cons, count_in_prints,
        count_in_fileCloses]
    | some h =>
      cases hr : h (w.trace ++ [Event.notify [Signal.SIGINT, Signal.SIGKILL, Signal.SIGTERM]]) <;>
        simp [handlerEvents, hr, closedEvents, notifyEvent, List.count_cons, count_in_prints,
          count_in_fileCloses]

/-- C10: in the end-to-end sequence (construct a daemon in a fresh process,
`AddFileLogger(P, "svc: ", flags)` succeeding with file `f`,
`Log(LOG_INFO, "ready")`, `Close()` with every close succeeding) the sequence
completes and `Close` returns nil, file `f` receives a record that contains
"svc: " and "ready", and the last record it receives contains "Daemon closed".
In general, for every daemon `gd`, world `gw` and `recover()` result, the
calls of `Close` end with the syslog close, then the one syslog Info call
with "Daemon closed", then one `Print` of "Daemon closed" on every
registered logger in order; before the syslog close there is neither a syslog
close nor a syslog Info call. -/
theorem C10_scenario_and_final_log (env : Env) (w0 : World) (P : String) (flags : Int)
    (sw : SyslogWriter) (f : File) (gd : Daemonizer) (gw : World) (pnc : Option Value)
    (hstart : w0.trace = [])
    (hsys : env.syslogNew [] = .ok sw)
    (hcreate : env.osCreate [Event.syslogNew, Event.setOutput] P = .ok f)
    (hclose : env.sinkClose [Event.syslogNew, Event.setOutput, Event.create P,
      Event.sink SinkMethod.Info "ready",
      Event.print (logNew f "svc: " flags) [Value.str "ready"]] = none) :
    (∃ wf : World,
      scenario env w0 P flags = .ok (wf, none) ∧
      (∃ r ∈ fileWrites env f [] wf.trace, contains r "svc: " ∧ contains r "ready") ∧
      (∃ r, (fileWrites env f [] wf.trace).getLast? = some r ∧ contains r "Daemon closed")) ∧
    (∃ pre : List Event,
      newEvents gw (Close env gd gw pnc).1
        = pre ++ Event.sinkClose :: Event.sink SinkMethod.Info "Daemon closed"
            :: gd.Loggers.map (fun l => Event.print l [Value.str "Daemon closed"]) ∧
      ∀ e ∈ pre, e ≠ Event.sinkClose ∧ ∀ msg, e ≠ Event.sink SinkMethod.Info msg) := by
  constructor
  · obtain ⟨wf, hrun, htr⟩ := scenario_run env w0 P flags sw f hstart hsys hcreate hclose
    refine ⟨wf, hrun, ?_, ?_⟩
    · refine ⟨(logNew f "svc: " flags).record
        (env.stamp [Event.syslogNew, Event.setOutput, Event.create P,
          Event.sink SinkMethod.Info "ready"] flags) [Value.str "ready"], ?_, ?_, ?_⟩
      · rw [htr]
        simp [fileWrites, logNew]
      · exact record_contains_pfx (logNew f "svc: " flags) _ _
      · exact record_contains_text (logNew f "svc: " flags) _ [Value.str "ready"]
    · refine ⟨(logNew f "svc: " flags).record
        (env.stamp [Event.syslogNew, Event.setOutput, Event.create P,
          Event.sink SinkMethod.Info "ready",
          Event.print (logNew f "svc: " flags) [Value.str "ready"],
          Event.sinkClose,
          Event.sink SinkMethod.Info "Daemon closed"] flags) [Value.str "Daemon closed"], ?_, ?_⟩
      · rw [htr]
        simp [fileWrites, logNew]
      · exact record_contains_text (logNew f "svc: " flags) _ [Value.str "Daemon closed"]
  · refine ⟨panicEvents gd pnc ++ gd.files.map Event.fileClose, ?_, ?_⟩
    · rw [newEvents_of_append gw _ _ (Close_trace env gd gw pnc)]
      simp [closedEvents]
    · intro e he
      rw [List.mem_append] at he
      rcases he with he | he
      · cases pnc with
        | none => simp [panicEvents] at he
        | some p =>
          simp only [panicEvents, List.mem_cons, List.mem_map] at he
          rcases he with rfl | ⟨l, _, rfl⟩ <;> simp
      · simp only [List.mem_map] at he
        rcases he with ⟨g, _, rfl⟩
        simp

/-- C10, instantiated: every call succeeds, the log file is
`/var/log/svc.log` with handle 3 and flags 3 (`log.LstdFlags`); the general
part is taken at a daemon with two loggers and one tracked file, closing
while panicking. -/
theorem C10_scenario_and_final_log_witness :
    world0.trace = [] ∧
    envOk.syslogNew [] = .ok ⟨1⟩ ∧
    envOk.osCreate [Event.syslogNew, Event.setOutput] "/var/log/svc.log" = .ok 3 ∧
    envOk.sinkClose [Event.syslogNew, Event.setOutput, Event.create "/var/log/svc.log",
      Event.sink SinkMethod.Info "ready",
      Event.print (logNew 3 "svc: " 3) [Value.str "ready"]] = none ∧
    ((∃ wf : World,
      scenario envOk world0 "/var/log/svc.log" 3 = .ok (wf, none) ∧
      (∃ r ∈ fileWrites envOk 3 [] wf.trace, contains r "svc: " ∧ contains r "ready") ∧
      (∃ r, (fileWrites envOk 3 [] wf.trace).getLast? = some r ∧
        contains r "Daemon closed")) ∧
    (∃ pre : List Event,
      newEvents world0 (Close envOk daemon2 world0 (some (Value.str "boom"))).1
        = pre ++ Event.sinkClose :: Event.sink SinkMethod.Info "Daemon closed"
            :: daemon2.Loggers.map (fun l => Event.print l [Value.str "Daemon closed"]) ∧
      ∀ e ∈ pre, e ≠ Event.sinkClose ∧ ∀ msg, e ≠ Event.sink SinkMethod.Info msg)) :=
  ⟨rfl, rfl, rfl, rfl,
    C10_scenario_and_final_log envOk world0 "/var/log/svc.log" 3 ⟨1⟩ 3 daemon2 world0
      (some (Value.str "boom")) rfl rfl rfl rfl⟩

end GoDaemonize
